import Mathlib

/-!
Shallow embedding of ios/build/generated/ios/rnskiaJSI.h, a header generated
by react-native-codegen (GenerateModuleH.js). The header declares the typed
interface NativeSkiaModuleCxxSpecJSI and the template adapter
NativeSkiaModuleCxxSpec<T> binding the RNSkiaModule native module into the
host framework's TurboModule system. Host-framework types opaque to the
generated code (jsi::Runtime, jsi::Value, CallInvoker, object addresses) are
modelled as tokens; the host framework's run-time behavior (the bridging
layer and the TurboModule base-class methods the delegate inherits) is a
parameter of the semantics. Method bodies are translated statement by
statement, producing the result, the post-state of the object, and a trace of
the primitive operations performed.
-/

namespace RnskiaJSI

/-- jsi::Runtime, opaque to the generated code: modelled as a token. -/
abbrev Runtime := Nat

/-- jsi::PropNameID, a JS property name. -/
abbrev PropNameID := String

/-- jsi::Value, opaque to the generated code: modelled as a token. -/
abbrev JsiValue := Nat

/-- A native object address: the value of a pointer such as this or T*. -/
abbrev Ptr := Nat

/-- std::shared_ptr<CallInvoker>, an opaque handle supplied by the host. -/
abbrev CallInvoker := Nat

/-- An error raised by the host framework's bridging layer on marshalling
failure; the generated code never constructs one. -/
abbrev BridgeError := String

/-- Return type of a declared native method, as written in the header. -/
inductive RetTy where
  | bool
  | jsiValue
  | propNameIDVector
deriving DecidableEq, Repr

/-- The declaration-level description of one C++ method: its name, the list
of its declared parameter types, its return type, and whether it is declared
virtual and public. -/
structure MethodSig where
  name : String
  params : List String
  ret : RetTy
  isVirtual : Bool
  isPublic : Bool
deriving DecidableEq, Repr

/-- The native methods declared by the typed interface
NativeSkiaModuleCxxSpecJSI (rnskiaJSI.h, class body at lines 18-25): besides
one protected constructor taking the CallInvoker, the body holds the single
declaration `virtual bool install(jsi::Runtime &rt) = 0;` and nothing else. -/
def NativeSkiaModuleCxxSpecJSI.declaredNativeMethods : List MethodSig :=
  [{ name := "install", params := ["jsi::Runtime &"], ret := RetTy.bool,
     isVirtual := true, isPublic := true }]

/-- An implementation type T of the template NativeSkiaModuleCxxSpec<T>: the
member T::install (a function of the object it is invoked on and of the
runtime, returning bool per the interface), together with the number of
explicit parameters in the declared type of &T::install, which is what the
host's constexpr bridging::getParameterCount reads off the member-pointer
type. -/
structure ImplType where
  installParamCount : Nat
  install : Ptr → Runtime → Bool

namespace bridging

/-- constexpr bridging::getParameterCount(&T::install) of the host framework:
a compile-time function of the declared member-pointer type alone, carried in
the model by ImplType.installParamCount. -/
def getParameterCount (T : ImplType) : Nat := T.installParamCount

end bridging

/-- A primitive operation the generated code could perform at run time:
calling the bridging layer, evaluating a parameter-count check, or writing a
member field. The embedded semantics records those it performs in a trace. -/
inductive Op where
  | bridgeCallFromJs (rt : Runtime) (method : String) (jsInvoker : CallInvoker) (inst : Ptr)
  | paramCountCheck (n : Nat)
  | memberWrite (field : String)
deriving DecidableEq, Repr

/-- Whether an operation is a run-time evaluation of a parameter-count
check. -/
def Op.isParamCountCheck : Op → Bool
  | .paramCountCheck _ => true
  | _ => false

/-- The private inner class NativeSkiaModuleCxxSpec<T>::Delegate (lines
47-68): a NativeSkiaModuleCxxSpecJSI holding the CallInvoker stored by the
TurboModule base (protected member jsInvoker_) and the T* member instance_. -/
structure Delegate where
  jsInvoker_ : CallInvoker
  instance_ : Ptr
deriving DecidableEq, Repr

/-- Delegate(T *instance, std::shared_ptr<CallInvoker> jsInvoker) (lines
49-52): forwards the invoker to the NativeSkiaModuleCxxSpecJSI base, which
stores it in the TurboModule base, and initializes instance_(instance); the
constructor body is empty. -/
def Delegate.construct (inst : Ptr) (jsInvoker : CallInvoker) : Delegate :=
  { jsInvoker_ := jsInvoker, instance_ := inst }

/-- The host framework's run-time behavior, external to this file:
bridging::callFromJs<bool> (which either returns a bool or raises a
marshalling error), and the create and getPropertyNames implementations the
delegate inherits from its TurboModule base. The inherited methods are
functions of the delegate object they are invoked on; being framework code,
none of them can reach the private members declared in this file. -/
structure HostFramework where
  callFromJs : Runtime → (Ptr → Runtime → Bool) → CallInvoker → Ptr → Except BridgeError Bool
  turboModuleCreate : Delegate → Runtime → PropNameID → JsiValue
  turboModuleGetPropertyNames : Delegate → Runtime → List PropNameID

/-- delegate_.create(rt, propName): the create the delegate inherits from
TurboModule; no override of create appears in the Delegate class body. -/
def Delegate.create (H : HostFramework) (d : Delegate) (rt : Runtime)
    (propName : PropNameID) : JsiValue :=
  H.turboModuleCreate d rt propName

/-- delegate_.getPropertyNames(runtime): the getPropertyNames the delegate
inherits from TurboModule; no override appears in the Delegate class body. -/
def Delegate.getPropertyNames (H : HostFramework) (d : Delegate)
    (rt : Runtime) : List PropNameID :=
  H.turboModuleGetPropertyNames d rt

/-- The static_assert in the body of Delegate::install (lines 55-57): the
template instantiation, and with it the build, succeeds for T exactly when
bridging::getParameterCount(&T::install) == 1. -/
def Delegate.installStaticAsserts (T : ImplType) : Bool :=
  bridging.getParameterCount T == 1

/-- The run-time body of bool Delegate::install(jsi::Runtime &rt) (lines
54-62): after the compile-time static_assert, the body is the single
statement `return bridging::callFromJs<bool>(rt, &T::install, jsInvoker_,
instance_);`. The embedding yields the returned value, the object state after
the call, and the trace of primitive operations performed. -/
def Delegate.install (H : HostFramework) (T : ImplType) (d : Delegate)
    (rt : Runtime) : Except BridgeError Bool × Delegate × List Op :=
  (H.callFromJs rt T.install d.jsInvoker_ d.instance_, d,
    [Op.bridgeCallFromJs rt "install" d.jsInvoker_ d.instance_])

/-- The template adapter NativeSkiaModuleCxxSpec<T> (lines 27-70): a
TurboModule whose base holds the module name and the CallInvoker, with the
inner delegate_ as its only other member; self records the object's own
address (its this pointer). -/
structure NativeSkiaModuleCxxSpec where
  self : Ptr
  name_ : String
  jsInvoker_ : CallInvoker
  delegate_ : Delegate
deriving DecidableEq, Repr

/-- static constexpr std::string_view kModuleName = "RNSkiaModule" (line
38). -/
def NativeSkiaModuleCxxSpec.kModuleName : String := "RNSkiaModule"

/-- NativeSkiaModuleCxxSpec(std::shared_ptr<CallInvoker> jsInvoker) (lines
41-43): initializes the TurboModule base with std::string{kModuleName} and
jsInvoker, and delegate_ with (reinterpret_cast<T*>(this), jsInvoker);
reinterpret_cast leaves the address unchanged, so the delegate receives the
constructed object's own address. -/
def NativeSkiaModuleCxxSpec.construct (self : Ptr) (jsInvoker : CallInvoker) :
    NativeSkiaModuleCxxSpec :=
  { self := self
  , name_ := NativeSkiaModuleCxxSpec.kModuleName
  , jsInvoker_ := jsInvoker
  , delegate_ := Delegate.construct self jsInvoker }

/-- jsi::Value create(jsi::Runtime &rt, const jsi::PropNameID &propName)
override (lines 30-32): the body is the single statement
`return delegate_.create(rt, propName);`. -/
def NativeSkiaModuleCxxSpec.create (H : HostFramework)
    (a : NativeSkiaModuleCxxSpec) (rt : Runtime) (propName : PropNameID) :
    JsiValue × NativeSkiaModuleCxxSpec :=
  (Delegate.create H a.delegate_ rt propName, a)

/-- std::vector<jsi::PropNameID> getPropertyNames(jsi::Runtime &runtime)
override (lines 34-36): the body is the single statement
`return delegate_.getPropertyNames(runtime);`. -/
def NativeSkiaModuleCxxSpec.getPropertyNames (H : HostFramework)
    (a : NativeSkiaModuleCxxSpec) (rt : Runtime) :
    List PropNameID × NativeSkiaModuleCxxSpec :=
  (Delegate.getPropertyNames H a.delegate_ rt, a)

/-- The method names NativeSkiaModuleCxxSpec itself marks override (lines 30
and 34): create and getPropertyNames. install is overridden by the inner
Delegate class, not by the adapter, which declares no install member. -/
def NativeSkiaModuleCxxSpec.overriddenMethods : List String :=
  ["create", "getPropertyNames"]

/-- Invoking install on the adapter's delegate_ member, propagating the
delegate's post-state back into the enclosing object. -/
def NativeSkiaModuleCxxSpec.invokeInstall (H : HostFramework) (T : ImplType)
    (a : NativeSkiaModuleCxxSpec) (rt : Runtime) :
    Except BridgeError Bool × NativeSkiaModuleCxxSpec × List Op :=
  let r := Delegate.install H T a.delegate_ rt
  (r.1, { a with delegate_ := r.2.1 }, r.2.2)

/-- Building the program for a given T and, when the build succeeds, invoking
Delegate::install: a failing static_assert means no binary exists for T, so
no install call can be executed. -/
def buildAndRunInstall (H : HostFramework) (T : ImplType)
    (a : NativeSkiaModuleCxxSpec) (rt : Runtime) :
    Option (Except BridgeError Bool × NativeSkiaModuleCxxSpec × List Op) :=
  if Delegate.installStaticAsserts T then some (a.invokeInstall H T rt)
  else none

/-- One externally invocable call on the adapter object. -/
inductive Call where
  | create (rt : Runtime) (propName : PropNameID)
  | getPropertyNames (rt : Runtime)
  | install (rt : Runtime)

/-- The adapter state after performing one call. -/
def stepCall (H : HostFramework) (T : ImplType) (a : NativeSkiaModuleCxxSpec) :
    Call → NativeSkiaModuleCxxSpec
  | .create rt p => (a.create H rt p).2
  | .getPropertyNames rt => (a.getPropertyNames H rt).2
  | .install rt => (a.invokeInstall H T rt).2.1

/-- The adapter state after a sequence of calls. -/
def runCalls (H : HostFramework) (T : ImplType) (a : NativeSkiaModuleCxxSpec) :
    List Call → NativeSkiaModuleCxxSpec
  | [] => a
  | c :: cs => runCalls H T (stepCall H T a c) cs

/-- A concrete host framework used to evaluate the semantics at concrete
inputs. -/
def hostF : HostFramework :=
  { callFromJs := fun _ _ _ _ => Except.ok true
  , turboModuleCreate := fun _ _ _ => 0
  , turboModuleGetPropertyNames := fun _ _ => [] }

/-- A concrete implementation type whose install has one parameter. -/
def implOne : ImplType := { installParamCount := 1, install := fun _ _ => true }

/-- A concrete implementation type whose install has two parameters. -/
def implTwo : ImplType := { installParamCount := 2, install := fun _ _ => true }

/-- A concrete adapter object, constructed at address 7 with invoker 3. -/
def adapter0 : NativeSkiaModuleCxxSpec := NativeSkiaModuleCxxSpec.construct 7 3

/-- Helper: a single call leaves the adapter object unchanged, since every
method body is one return statement with no assignment. -/
theorem stepCall_eq_self (H : HostFramework) (T : ImplType)
    (a : NativeSkiaModuleCxxSpec) (c : Call) : stepCall H T a c = a := by
  cases c <;> rfl

/-- Helper: a sequence of calls leaves the adapter object unchanged. -/
theorem runCalls_eq_self (H : HostFramework) (T : ImplType)
    (a : NativeSkiaModuleCxxSpec) (cs : List Call) : runCalls H T a cs = a := by
  induction cs generalizing a with
  | nil => rfl
  | cons c cs ih => rw [runCalls, stepCall_eq_self]; exact ih a

/-- Claim C1: for every implementation type T and every runtime rt, the
generated Delegate::install(rt) performs exactly one synchronous delegation,
calling the host bridging layer with T::install on the stored instance, and
returns the bool value that the bridging call returns unchanged; its trace
holds that single bridging call and no other operation. -/
theorem install_is_single_forward (H : HostFramework) (T : ImplType)
    (d : Delegate) (rt : Runtime) :
    (Delegate.install H T d rt).1 =
      H.callFromJs rt T.install d.jsInvoker_ d.instance_ ∧
    (Delegate.install H T d rt).2.2 =
      [Op.bridgeCallFromJs rt "install" d.jsInvoker_ d.instance_] :=
  ⟨rfl, rfl⟩

/-- Claim C2: the typed interface NativeSkiaModuleCxxSpecJSI declares exactly
one public virtual native method, named install, taking exactly one parameter
(a runtime reference) and returning bool; no other native method is exposed
by the generated interface. -/
theorem interface_declares_exactly_install :
    NativeSkiaModuleCxxSpecJSI.declaredNativeMethods.length = 1 ∧
    (NativeSkiaModuleCxxSpecJSI.declaredNativeMethods.all fun m =>
      m.name == "install" && m.params == ["jsi::Runtime &"] &&
      m.params.length == 1 && m.ret == RetTy.bool && m.isVirtual &&
      m.isPublic) = true ∧
    NativeSkiaModuleCxxSpecJSI.declaredNativeMethods.filter
      (fun m => m.name != "install") = [] := by
  refine ⟨rfl, ?_, rfl⟩
  decide

/-- Claim C3: the compile-time static_assert checks that T::install accepts
exactly one parameter; the template compiles for T exactly when the count is
one, and for any T of mismatched arity the build fails and no install call is
executable. -/
theorem arity_static_assert_gates_build (T : ImplType) :
    (Delegate.installStaticAsserts T = true ↔
      bridging.getParameterCount T = 1) ∧
    ∀ (H : HostFramework) (a : NativeSkiaModuleCxxSpec) (rt : Runtime),
      bridging.getParameterCount T ≠ 1 → buildAndRunInstall H T a rt = none := by
  constructor
  · simp [Delegate.installStaticAsserts]
  · intro H a rt hne
    simp [buildAndRunInstall, Delegate.installStaticAsserts, hne]

/-- Witness for C3: the concrete implementation type with a two-parameter
install has a failing static_assert, so its build-and-run result is none. -/
theorem arity_static_assert_gates_build_witness :
    buildAndRunInstall hostF implTwo adapter0 0 = none :=
  (arity_static_assert_gates_build implTwo).2 hostF adapter0 0 (by decide)

/-- Claim C4: the module name is the fixed constant string "RNSkiaModule":
kModuleName equals "RNSkiaModule" and the NativeSkiaModuleCxxSpec constructor
always passes exactly that name to the TurboModule base. -/
theorem module_name_is_fixed :
    NativeSkiaModuleCxxSpec.kModuleName = "RNSkiaModule" ∧
    ∀ (self : Ptr) (jsInvoker : CallInvoker),
      (NativeSkiaModuleCxxSpec.construct self jsInvoker).name_ =
        "RNSkiaModule" :=
  ⟨rfl, fun _ _ => rfl⟩

/-- Counterexample for C5: at a concrete implementation type, adapter object,
and runtime, invoking install performs no run-time evaluation of a
parameter-count check — every operation in its trace is other than a
paramCountCheck — refuting that the arity check is evaluated at run time when
the method is invoked. -/
theorem no_runtime_arity_check_at_invocation :
    ((adapter0.invokeInstall hostF implOne 0).2.2.all fun op =>
      !op.isParamCountCheck) = true := by
  decide

/-- Claim C5 as amended: the artifact's only failure-recovery logic is a
single assertion on parameter count, and it is compile-time, not run-time:
the build evaluates exactly the check getParameterCount(&T::install) == 1,
while the run-time trace of an install invocation holds no parameter-count
check. -/
theorem arity_check_is_compile_time (T : ImplType) :
    Delegate.installStaticAsserts T = (bridging.getParameterCount T == 1) ∧
    ∀ (H : HostFramework) (a : NativeSkiaModuleCxxSpec) (rt : Runtime),
      ((a.invokeInstall H T rt).2.2.all fun op =>
        !op.isParamCountCheck) = true := by
  exact ⟨rfl, fun _ _ _ => rfl⟩

/-- Claim C6: the generated code raises no errors of its own: for every
runtime, Delegate::install raises an error exactly when the host bridging
call applied to T::install raises that error; no error originates in this
file. -/
theorem install_error_iff_bridging_error (H : HostFramework) (T : ImplType)
    (d : Delegate) (rt : Runtime) (e : BridgeError) :
    (Delegate.install H T d rt).1 = Except.error e ↔
      H.callFromJs rt T.install d.jsInvoker_ d.instance_ = Except.error e :=
  Iff.rfl

/-- Claim C7: invoking install mutates no state declared in this artifact:
the adapter object after the call equals the object before it, so in
particular the delegate's instance_ pointer, the adapter's delegate_ member,
and the module name are unchanged. -/
theorem install_mutates_no_state (H : HostFramework) (T : ImplType)
    (a : NativeSkiaModuleCxxSpec) (rt : Runtime) :
    (a.invokeInstall H T rt).2.1 = a ∧
    (a.invokeInstall H T rt).2.1.delegate_.instance_ = a.delegate_.instance_ ∧
    (a.invokeInstall H T rt).2.1.delegate_ = a.delegate_ ∧
    (a.invokeInstall H T rt).2.1.name_ = a.name_ :=
  ⟨rfl, rfl, rfl, rfl⟩

/-- Claim C8: for every adapter constructed at an address self, the inner
delegate's instance_ pointer equals the enclosing adapter object itself: it
is set to reinterpret_cast<T*>(this) at construction and, after any sequence
of calls, is still that same address (CRTP self-dispatch). -/
theorem instance_pointer_is_self (H : HostFramework) (T : ImplType)
    (self : Ptr) (jsInvoker : CallInvoker) (cs : List Call) :
    (runCalls H T (NativeSkiaModuleCxxSpec.construct self jsInvoker)
      cs).delegate_.instance_ = self ∧
    (runCalls H T (NativeSkiaModuleCxxSpec.construct self jsInvoker)
      cs).delegate_.instance_ =
      (runCalls H T (NativeSkiaModuleCxxSpec.construct self jsInvoker)
        cs).self := by
  rw [runCalls_eq_self]
  exact ⟨rfl, rfl⟩

/-- Claim C9: besides install, the adapter overrides exactly the two public
operations create and getPropertyNames, and for every runtime and property
name each returns exactly what the inner delegate's method of the same name
returns. -/
theorem adapter_overrides_forward_verbatim (H : HostFramework)
    (a : NativeSkiaModuleCxxSpec) (rt : Runtime) (propName : PropNameID) :
    NativeSkiaModuleCxxSpec.overriddenMethods =
      ["create", "getPropertyNames"] ∧
    (a.create H rt propName).1 = Delegate.create H a.delegate_ rt propName ∧
    (a.getPropertyNames H rt).1 = Delegate.getPropertyNames H a.delegate_ rt :=
  ⟨rfl, rfl, rfl⟩

end RnskiaJSI
